import Mathlib

/-!
Verification of `hgext3rd/statprofext.py` (shelmangroup/sapling).

The source is a context manager `statprofile(orig, ui, fp)` that wraps a
unit of work with a statprof profiling session:

  1. `import statprof`; on ImportError raise `error.Abort`.
  2. `freq = ui.configint('profiling', 'freq', default=1000)`;
     if `freq > 0` call `statprof.reset(freq)` else emit a warning.
  3. `mechanism = ui.config('statprof', 'mechanism', 'thread')`;
     call `statprof.start(mechanism=mechanism)`.
  4. `try: yield finally:` call `statprof.stop()`, resolve
     `profformat = ui.config('statprof', 'format', 'hotpath')`
     (warning and fallback to Hotpath on an unknown value), and call
     `statprof.display(fp, format=displayformat)`.

The embedding records the observable calls to the external statprof
engine and the warnings written to the ui as an ordered event trace, and
the run's outcome as an `Except`: a run either completes normally,
aborts because statprof is unavailable, or re-raises an exception value
(one raised by `statprof.start` or one raised by the wrapped work).
-/

/-- Display formats of the external statprof engine
(`statprof.DisplayFormats`). The wrapper names only `Hotpath` and
`Json`; the engine itself exposes a larger fixed set, modelled here so
that statements about which formats can reach `display` are not vacuous. -/
inductive DisplayFormats where
  | ByLine
  | ByMethod
  | AboutMethod
  | Hotpath
  | FlameGraph
  | Json
  | Chrome
deriving DecidableEq, Repr

/-- Warnings the wrapper writes via `ui.warn`, tagged with the offending
configuration value they reference. -/
inductive Warning where
  | invalidFreq (freq : Int)
  | unknownFormat (fmt : String)
deriving DecidableEq, Repr

/-- Observable side effects of one run of `statprofile`, in order:
calls into the statprof engine and warnings written to the ui. -/
inductive Event where
  | warn (w : Warning)
  | reset (freq : Int)
  | start (mechanism : String)
  | stop
  | display (fmt : DisplayFormats)
deriving DecidableEq, Repr

/-- Exceptions that can escape `statprofile`: the `error.Abort` raised
when statprof cannot be imported, or an exception value `e` propagated
unchanged (raised by `statprof.start` or by the wrapped work). -/
inductive Exn (ε : Type) where
  | abortStatprofUnavailable
  | exn (e : ε)
deriving DecidableEq, Repr

/-- Configuration values the wrapper reads from the ui: the keys
`profiling.freq`, `statprof.mechanism` and `statprof.format`. `none`
means the key is absent. -/
structure Config where
  freq : Option Int
  mechanism : Option String
  format : Option String
deriving DecidableEq, Repr

/-- `ui.configint(section, key, default)`: the configured integer, or
the default when the key is absent. -/
def uiConfigint (v : Option Int) (default : Int) : Int :=
  v.getD default

/-- `ui.config(section, key, default)`: the configured string, or the
default when the key is absent. -/
def uiConfig (v : Option String) (default : String) : String :=
  v.getD default

/-- Lines 36-40 of the source: when `freq > 0` call
`statprof.reset(freq)`, otherwise warn about the invalid sampling
frequency and leave the engine's rate untouched. -/
def configureFreq (freq : Int) : List Event :=
  if freq > 0 then [Event.reset freq]
  else [Event.warn (Warning.invalidFreq freq)]

/-- Lines 49-57 of the source: resolve the display format from the
configured `statprof.format` string; an unrecognized value produces a
warning naming it and falls back to `Hotpath`. Returns the warning
events emitted together with the chosen format. -/
def resolveDisplayFormat (profformat : String) : List Event × DisplayFormats :=
  if profformat = "hotpath" then ([], DisplayFormats.Hotpath)
  else if profformat = "json" then ([], DisplayFormats.Json)
  else ([Event.warn (Warning.unknownFormat profformat)], DisplayFormats.Hotpath)

/-- The `statprofile` context manager of `statprofext.py`.

`statprofAvailable` models whether `import statprof` succeeds;
`startErr` models the behaviour of the external `statprof.start` call
(`some e` means the engine rejects the start by raising `e`); `work` is
the result of the wrapped work (the body of the `with` block), which
either returns or raises an exception value.

The result is the ordered trace of observable events together with the
run's outcome. Mirrors the source line by line: the import check, the
frequency block, `start(mechanism)`, then the `try/finally` whose
`finally` runs `stop()`, format resolution and `display` before the
work's exception (when any) is re-raised unchanged. -/
def statprofile {ε : Type} (statprofAvailable : Bool) (ui : Config)
    (startErr : Option ε) (work : Except ε Unit) :
    List Event × Except (Exn ε) Unit :=
  if statprofAvailable then
    let freq := uiConfigint ui.freq 1000
    let freqEvents := configureFreq freq
    let mechanism := uiConfig ui.mechanism "thread"
    match startErr with
    | some e => (freqEvents ++ [Event.start mechanism], Except.error (Exn.exn e))
    | none =>
      let res := resolveDisplayFormat (uiConfig ui.format "hotpath")
      let finalEvents := Event.stop :: (res.1 ++ [Event.display res.2])
      match work with
      | Except.ok _ =>
        (freqEvents ++ Event.start mechanism :: finalEvents, Except.ok ())
      | Except.error e =>
        (freqEvents ++ Event.start mechanism :: finalEvents,
          Except.error (Exn.exn e))
  else
    ([], Except.error Exn.abortStatprofUnavailable)

/-- Does an event record a call to `statprof.reset`? -/
def Event.isReset : Event → Bool
  | Event.reset _ => true
  | _ => false

/-- Does an event record a call to `statprof.start`? -/
def Event.isStart : Event → Bool
  | Event.start _ => true
  | _ => false

/-- Does an event record the call to `statprof.stop`? -/
def Event.isStop : Event → Bool
  | Event.stop => true
  | _ => false

/-- Does an event record a call to `statprof.display`? -/
def Event.isDisplay : Event → Bool
  | Event.display _ => true
  | _ => false

/-- Is an event an invalid-sampling-frequency warning? -/
def Event.isFreqWarn : Event → Bool
  | Event.warn (Warning.invalidFreq _) => true
  | _ => false

/-- Is an event an unknown-output-format warning? -/
def Event.isFormatWarn : Event → Bool
  | Event.warn (Warning.unknownFormat _) => true
  | _ => false

/-- C3: when statprof cannot be imported the run aborts with the
`error.Abort` immediately: no event at all is emitted (no start, no
stop, no warning, no report) and the result does not depend on the
wrapped work or on the engine, so the work is never invoked. -/
theorem unavailable_aborts_without_side_effects {ε : Type} (ui : Config)
    (startErr : Option ε) (work : Except ε Unit) :
    statprofile false ui startErr work
      = ([], Except.error Exn.abortStatprofUnavailable) := by
  rfl

/-- C1: when the engine started successfully and the wrapped work raises
an error `e`, the trace still contains the `stop` call and a `display`
call, and the outcome re-raises exactly `e`, unwrapped. -/
theorem work_error_still_stops_and_displays {ε : Type} (ui : Config) (e : ε) :
    Event.stop ∈ (statprofile true ui (none : Option ε) (Except.error e)).1
    ∧ (∃ f, Event.display f
        ∈ (statprofile true ui (none : Option ε) (Except.error e)).1)
    ∧ (statprofile true ui (none : Option ε) (Except.error e)).2
        = Except.error (Exn.exn e) := by
  refine ⟨by simp [statprofile],
    ⟨(resolveDisplayFormat (uiConfig ui.format "hotpath")).2,
      by simp [statprofile]⟩,
    by simp [statprofile]⟩

/-- C9: when `statprof.start` itself raises `e`, the wrapped work is
never executed (the run's result does not depend on it), `stop` is never
called, no report is displayed, and `e` propagates to the caller. -/
theorem start_error_skips_work_stop_display {ε : Type} (ui : Config) (e : ε)
    (work work' : Except ε Unit) :
    Event.stop ∉ (statprofile true ui (some e) work).1
    ∧ (∀ f, Event.display f ∉ (statprofile true ui (some e) work).1)
    ∧ (statprofile true ui (some e) work).2 = Except.error (Exn.exn e)
    ∧ statprofile true ui (some e) work = statprofile true ui (some e) work' := by
  refine ⟨?_, ?_, by simp [statprofile], by simp [statprofile]⟩
  · simp [statprofile, configureFreq]
    split <;> simp
  · intro f
    simp [statprofile, configureFreq]
    split <;> simp

/-- The frequency block emits no `display` event. -/
theorem configureFreq_no_display (freq : Int) (f : DisplayFormats) :
    Event.display f ∉ configureFreq freq := by
  unfold configureFreq
  split <;> simp

/-- The frequency block emits no `stop` event. -/
theorem configureFreq_no_stop (freq : Int) :
    Event.stop ∉ configureFreq freq := by
  unfold configureFreq
  split <;> simp

/-- The warnings of format resolution contain no `display` event. -/
theorem resolveDisplayFormat_no_display (s : String) (f : DisplayFormats) :
    Event.display f ∉ (resolveDisplayFormat s).1 := by
  unfold resolveDisplayFormat
  split_ifs <;> simp

/-- Format resolution always chooses `Hotpath` or `Json`. -/
theorem resolveDisplayFormat_snd (s : String) :
    (resolveDisplayFormat s).2 = DisplayFormats.Hotpath
      ∨ (resolveDisplayFormat s).2 = DisplayFormats.Json := by
  unfold resolveDisplayFormat
  split_ifs <;> simp

/-- C10: in every run, any format that reaches `statprof.display` is
either `Hotpath` or `Json`; no other member of the engine's format set
can ever be passed to `display`. -/
theorem display_format_is_hotpath_or_json {ε : Type} (ui : Config)
    (startErr : Option ε) (work : Except ε Unit) :
    ∀ f, Event.display f ∈ (statprofile true ui startErr work).1 →
      f = DisplayFormats.Hotpath ∨ f = DisplayFormats.Json := by
  intro f hf
  rcases startErr with _ | e <;> rcases work with u | e2 <;>
    simp [statprofile, configureFreq, resolveDisplayFormat] at hf <;>
    split_ifs at hf <;> simp_all

/-- Trace of a run where statprof loads and `start` succeeds: the
frequency block, the `start` call, then the `finally` block in order
(`stop`, format-resolution warnings, `display`), for both outcomes of
the work. -/
theorem statprofile_none_trace {ε : Type} (ui : Config) (work : Except ε Unit) :
    (statprofile true ui (none : Option ε) work).1
      = configureFreq (uiConfigint ui.freq 1000)
        ++ Event.start (uiConfig ui.mechanism "thread")
        :: Event.stop
        :: ((resolveDisplayFormat (uiConfig ui.format "hotpath")).1
            ++ [Event.display (resolveDisplayFormat (uiConfig ui.format "hotpath")).2]) := by
  rcases work with u | e <;> rfl

/-- Trace of a run where statprof loads but `start` raises: only the
frequency block and the rejected `start` call. -/
theorem statprofile_startErr_trace {ε : Type} (ui : Config) (e : ε)
    (work : Except ε Unit) :
    (statprofile true ui (some e) work).1
      = configureFreq (uiConfigint ui.freq 1000)
        ++ [Event.start (uiConfig ui.mechanism "thread")] := by
  rfl

/-- Outcome of a run where `start` raises: the engine's error
propagates unchanged. -/
theorem statprofile_startErr_snd {ε : Type} (ui : Config) (e : ε)
    (work : Except ε Unit) :
    (statprofile true ui (some e) work).2 = Except.error (Exn.exn e) := by
  rfl

/-- The frequency block is a single event: a `reset` or a warning. -/
theorem configureFreq_eq (freq : Int) :
    configureFreq freq = [Event.reset freq]
      ∨ configureFreq freq = [Event.warn (Warning.invalidFreq freq)] := by
  unfold configureFreq
  split_ifs <;> simp

/-- Format resolution emits no warning or exactly the unknown-format
warning naming the configured string. -/
theorem resolveDisplayFormat_fst (s : String) :
    (resolveDisplayFormat s).1 = []
      ∨ (resolveDisplayFormat s).1 = [Event.warn (Warning.unknownFormat s)] := by
  unfold resolveDisplayFormat
  split_ifs <;> simp

/-- Format resolution on the configured value `hotpath`. -/
theorem resolveDisplayFormat_hotpath :
    resolveDisplayFormat "hotpath" = ([], DisplayFormats.Hotpath) := by
  rfl

/-- Format resolution on the configured value `json`. -/
theorem resolveDisplayFormat_json :
    resolveDisplayFormat "json" = ([], DisplayFormats.Json) := by
  unfold resolveDisplayFormat
  rw [if_neg (by decide), if_pos rfl]

/-- Format resolution on an unrecognized configured value. -/
theorem resolveDisplayFormat_unknown (s : String) (h1 : s ≠ "hotpath")
    (h2 : s ≠ "json") :
    resolveDisplayFormat s
      = ([Event.warn (Warning.unknownFormat s)], DisplayFormats.Hotpath) := by
  unfold resolveDisplayFormat
  rw [if_neg h1, if_neg h2]

/-- No event of the frequency block satisfies a predicate that rejects
`reset` events and invalid-frequency warnings. -/
theorem configureFreq_countP (p : Event → Bool) (freq : Int)
    (hr : ∀ i, p (Event.reset i) = false)
    (hw : ∀ i, p (Event.warn (Warning.invalidFreq i)) = false) :
    (configureFreq freq).countP p = 0 := by
  unfold configureFreq
  split_ifs <;> simp [List.countP_cons, hr, hw]

/-- No event of the format-resolution warnings satisfies a predicate
that rejects unknown-format warnings. -/
theorem resolveDisplayFormat_countP (p : Event → Bool) (s : String)
    (hw : ∀ t, p (Event.warn (Warning.unknownFormat t)) = false) :
    ((resolveDisplayFormat s).1).countP p = 0 := by
  unfold resolveDisplayFormat
  split_ifs <;> simp [List.countP_cons, hw]

/-- Every successful-start run stops the engine exactly once. -/
theorem statprofile_stop_count_one {ε : Type} (ui : Config)
    (work : Except ε Unit) :
    (statprofile true ui (none : Option ε) work).1.countP Event.isStop = 1 := by
  rw [statprofile_none_trace, List.countP_append,
    configureFreq_countP Event.isStop _ (fun i => rfl) (fun i => rfl)]
  simp [List.countP_cons, List.countP_append, Event.isStop, Event.isStart,
    resolveDisplayFormat_countP Event.isStop _ (fun t => rfl)]

/-- Every run that reaches `start` calls it exactly once. -/
theorem statprofile_start_count_one {ε : Type} (ui : Config)
    (startErr : Option ε) (work : Except ε Unit) :
    (statprofile true ui startErr work).1.countP Event.isStart = 1 := by
  rcases startErr with _ | e
  · rw [statprofile_none_trace, List.countP_append,
      configureFreq_countP Event.isStart _ (fun i => rfl) (fun i => rfl)]
    simp [List.countP_cons, List.countP_append, Event.isStart,
      resolveDisplayFormat_countP Event.isStart _ (fun t => rfl)]
  · rw [statprofile_startErr_trace, List.countP_append,
      configureFreq_countP Event.isStart _ (fun i => rfl) (fun i => rfl)]
    simp [List.countP_cons, Event.isStart]

/-- C2: for every valid configuration (positive frequency, recognized
mechanism, recognized format) a run with a successfully started engine
starts it exactly once and stops it exactly once; and in general every
run whose `start` succeeded stops the engine exactly once, on the
normal exit path and on the error exit path alike. -/
theorem engine_started_and_stopped_exactly_once {ε : Type} (ui : Config)
    (work : Except ε Unit)
    (hfreq : 0 < uiConfigint ui.freq 1000)
    (hmech : uiConfig ui.mechanism "thread" = "thread"
      ∨ uiConfig ui.mechanism "thread" = "signal")
    (hfmt : uiConfig ui.format "hotpath" = "hotpath"
      ∨ uiConfig ui.format "hotpath" = "json") :
    ((statprofile true ui (none : Option ε) work).1.countP Event.isStart = 1
    ∧ (statprofile true ui (none : Option ε) work).1.countP Event.isStop = 1)
    ∧ ∀ (ui2 : Config) (w2 : Except ε Unit),
        (statprofile true ui2 (none : Option ε) w2).1.countP Event.isStop = 1 := by
  exact ⟨⟨statprofile_start_count_one ui none work,
    statprofile_stop_count_one ui work⟩,
    fun ui2 w2 => statprofile_stop_count_one ui2 w2⟩

/-- Witness for C2 at the concrete configuration
freq 500, mechanism signal, format json. -/
theorem engine_started_and_stopped_exactly_once_witness :
    (statprofile true ⟨some 500, some "signal", some "json"⟩
        (none : Option Unit) (Except.ok ())).1.countP Event.isStart = 1
    ∧ (statprofile true ⟨some 500, some "signal", some "json"⟩
        (none : Option Unit) (Except.ok ())).1.countP Event.isStop = 1 :=
  (engine_started_and_stopped_exactly_once
    ⟨some 500, some "signal", some "json"⟩ (Except.ok ())
    (by decide) (by decide) (by decide)).1

/-- C4: when the configured sampling frequency is not positive, `reset`
is never called, exactly one warning is emitted and it references the
offending value, and the session still proceeds to start the engine. -/
theorem invalid_freq_warns_and_continues {ε : Type} (ui : Config) (v : Int)
    (startErr : Option ε) (work : Except ε Unit)
    (hv : ui.freq = some v) (hle : v ≤ 0) :
    (∀ i, Event.reset i ∉ (statprofile true ui startErr work).1)
    ∧ (statprofile true ui startErr work).1.countP Event.isFreqWarn = 1
    ∧ Event.warn (Warning.invalidFreq v) ∈ (statprofile true ui startErr work).1
    ∧ Event.start (uiConfig ui.mechanism "thread")
        ∈ (statprofile true ui startErr work).1 := by
  have hfq : uiConfigint ui.freq 1000 = v := by simp [uiConfigint, hv]
  have hcf : configureFreq v = [Event.warn (Warning.invalidFreq v)] := by
    unfold configureFreq
    rw [if_neg (by omega)]
  rcases startErr with _ | e
  · rw [statprofile_none_trace, hfq, hcf]
    rcases resolveDisplayFormat_fst (uiConfig ui.format "hotpath") with h | h <;>
      rw [h] <;>
      exact ⟨fun i => by simp, by rfl, by simp, by simp⟩
  · rw [statprofile_startErr_trace, hfq, hcf]
    exact ⟨fun i => by simp, by rfl, by simp, by simp⟩

/-- Witness for C4 at the concrete configured frequency -5. -/
theorem invalid_freq_warns_and_continues_witness :
    (⟨some (-5), none, none⟩ : Config).freq = some (-5)
    ∧ (-5 : Int) ≤ 0
    ∧ ((∀ i, Event.reset i ∉ (statprofile true ⟨some (-5), none, none⟩
          (none : Option Unit) (Except.ok ())).1)
      ∧ (statprofile true ⟨some (-5), none, none⟩
          (none : Option Unit) (Except.ok ())).1.countP Event.isFreqWarn = 1
      ∧ Event.warn (Warning.invalidFreq (-5))
          ∈ (statprofile true ⟨some (-5), none, none⟩
              (none : Option Unit) (Except.ok ())).1
      ∧ Event.start "thread"
          ∈ (statprofile true ⟨some (-5), none, none⟩
              (none : Option Unit) (Except.ok ())).1) :=
  ⟨rfl, by decide,
    invalid_freq_warns_and_continues ⟨some (-5), none, none⟩ (-5)
      none (Except.ok ()) rfl (by decide)⟩

/-- C5: `display` receives exactly the configured format when it is
recognized (`hotpath` or `json`) with no format warning; an
unrecognized configured value falls back to the default `Hotpath` with
exactly one warning naming the offending value. -/
theorem format_resolution_matches_config {ε : Type} (ui : Config)
    (work : Except ε Unit) :
    (uiConfig ui.format "hotpath" = "hotpath" →
      Event.display DisplayFormats.Hotpath
          ∈ (statprofile true ui (none : Option ε) work).1
      ∧ (statprofile true ui (none : Option ε) work).1.countP
          Event.isFormatWarn = 0)
    ∧ (uiConfig ui.format "hotpath" = "json" →
      Event.display DisplayFormats.Json
          ∈ (statprofile true ui (none : Option ε) work).1
      ∧ (statprofile true ui (none : Option ε) work).1.countP
          Event.isFormatWarn = 0)
    ∧ (uiConfig ui.format "hotpath" ≠ "hotpath" →
       uiConfig ui.format "hotpath" ≠ "json" →
      Event.display DisplayFormats.Hotpath
          ∈ (statprofile true ui (none : Option ε) work).1
      ∧ (statprofile true ui (none : Option ε) work).1.countP
          Event.isFormatWarn = 1
      ∧ Event.warn (Warning.unknownFormat (uiConfig ui.format "hotpath"))
          ∈ (statprofile true ui (none : Option ε) work).1) := by
  refine ⟨fun h => ?_, fun h => ?_, fun h1 h2 => ?_⟩ <;>
    rw [statprofile_none_trace]
  · rw [h, resolveDisplayFormat_hotpath]
    refine ⟨by simp, ?_⟩
    rw [List.countP_append,
      configureFreq_countP Event.isFormatWarn _ (fun i => rfl) (fun i => rfl)]
    rfl
  · rw [h, resolveDisplayFormat_json]
    refine ⟨by simp, ?_⟩
    rw [List.countP_append,
      configureFreq_countP Event.isFormatWarn _ (fun i => rfl) (fun i => rfl)]
    rfl
  · rw [resolveDisplayFormat_unknown _ h1 h2]
    refine ⟨by simp, ?_, by simp⟩
    rw [List.countP_append,
      configureFreq_countP Event.isFormatWarn _ (fun i => rfl) (fun i => rfl)]
    rfl

/-- Witness for C5 at the concrete unrecognized format value xml. -/
theorem format_resolution_matches_config_witness :
    Event.display DisplayFormats.Hotpath
        ∈ (statprofile true ⟨none, none, some "xml"⟩
            (none : Option Unit) (Except.ok ())).1
    ∧ (statprofile true ⟨none, none, some "xml"⟩
        (none : Option Unit) (Except.ok ())).1.countP Event.isFormatWarn = 1
    ∧ Event.warn (Warning.unknownFormat "xml")
        ∈ (statprofile true ⟨none, none, some "xml"⟩
            (none : Option Unit) (Except.ok ())).1 :=
  (format_resolution_matches_config ⟨none, none, some "xml"⟩
    (Except.ok ())).2.2 (by decide) (by decide)

/-- C6: in every successful-start run, every event before the `stop`
call is neither a `display` nor a format warning (the format key is not
read and the report not rendered while the engine runs), and a
`display` occurs after the `stop`. -/
theorem format_read_and_display_after_stop {ε : Type} (ui : Config)
    (work : Except ε Unit) :
    (∀ e ∈ (statprofile true ui (none : Option ε) work).1.takeWhile
        (fun x => ! x.isStop),
      Event.isDisplay e = false ∧ Event.isFormatWarn e = false)
    ∧ ∃ f, Event.display f
        ∈ (statprofile true ui (none : Option ε) work).1.dropWhile
            (fun x => ! x.isStop) := by
  rw [statprofile_none_trace]
  rcases configureFreq_eq (uiConfigint ui.freq 1000) with h | h <;> rw [h] <;>
    refine ⟨?_, ⟨(resolveDisplayFormat (uiConfig ui.format "hotpath")).2, ?_⟩⟩ <;>
    simp [List.takeWhile_cons, List.dropWhile_cons, Event.isStop,
      Event.isDisplay, Event.isFormatWarn]

/-- Witness for C6 at an empty configuration. -/
theorem format_read_and_display_after_stop_witness :
    ∃ f, Event.display f
        ∈ (statprofile true ⟨none, none, none⟩
            (none : Option Unit) (Except.ok ())).1.dropWhile
            (fun x => ! x.isStop) :=
  (format_read_and_display_after_stop ⟨none, none, none⟩ (Except.ok ())).2

/-- C7: when the frequency key is absent, the engine is reset to the
default 1000 samples per second, and this reset happens before the
`start` call. -/
theorem absent_freq_resets_to_default {ε : Type} (ui : Config)
    (startErr : Option ε) (work : Except ε Unit) (h : ui.freq = none) :
    ∃ rest, (statprofile true ui startErr work).1
      = Event.reset 1000
        :: Event.start (uiConfig ui.mechanism "thread") :: rest := by
  have hfq : uiConfigint ui.freq 1000 = 1000 := by simp [uiConfigint, h]
  have hcf : configureFreq 1000 = [Event.reset 1000] := by
    unfold configureFreq
    rw [if_pos (by decide)]
  rcases startErr with _ | e
  · exact ⟨Event.stop
      :: ((resolveDisplayFormat (uiConfig ui.format "hotpath")).1
          ++ [Event.display (resolveDisplayFormat (uiConfig ui.format "hotpath")).2]),
      by rw [statprofile_none_trace, hfq, hcf]; rfl⟩
  · exact ⟨[], by rw [statprofile_startErr_trace, hfq, hcf]; rfl⟩

/-- Witness for C7 at an empty configuration. -/
theorem absent_freq_resets_to_default_witness :
    (⟨none, none, none⟩ : Config).freq = none
    ∧ ∃ rest, (statprofile true ⟨none, none, none⟩
        (none : Option Unit) (Except.ok ())).1
      = Event.reset 1000 :: Event.start "thread" :: rest :=
  ⟨rfl, absent_freq_resets_to_default ⟨none, none, none⟩ none
    (Except.ok ()) rfl⟩

/-- C8: every run that reaches the `start` call passes it exactly the
mechanism resolved from config (default thread), unmodified even when
unrecognized, calling it exactly once; and when the engine rejects the
start by raising an error, that error propagates to the caller. -/
theorem start_receives_configured_mechanism {ε : Type} (ui : Config)
    (startErr : Option ε) (work : Except ε Unit) :
    (statprofile true ui startErr work).1.countP Event.isStart = 1
    ∧ Event.start (uiConfig ui.mechanism "thread")
        ∈ (statprofile true ui startErr work).1
    ∧ ∀ e, startErr = some e →
        (statprofile true ui startErr work).2 = Except.error (Exn.exn e) := by
  refine ⟨statprofile_start_count_one ui startErr work, ?_, ?_⟩
  · rcases startErr with _ | e
    · rw [statprofile_none_trace]
      simp
    · rw [statprofile_startErr_trace]
      simp
  · rintro e rfl
    exact statprofile_startErr_snd ui e work

/-- Witness for C8 at the concrete unrecognized mechanism bogus with a
start rejection. -/
theorem start_receives_configured_mechanism_witness :
    Event.start "bogus"
        ∈ (statprofile true ⟨none, some "bogus", none⟩
            (some (0 : Nat)) (Except.ok ())).1
    ∧ (statprofile true ⟨none, some "bogus", none⟩
        (some (0 : Nat)) (Except.ok ())).2 = Except.error (Exn.exn 0) :=
  ⟨(start_receives_configured_mechanism ⟨none, some "bogus", none⟩
      (some (0 : Nat)) (Except.ok ())).2.1,
    (start_receives_configured_mechanism ⟨none, some "bogus", none⟩
      (some (0 : Nat)) (Except.ok ())).2.2 0 rfl⟩

/-- Witness for C10 at an empty configuration, where the Hotpath format
reaches display. -/
theorem display_format_is_hotpath_or_json_witness :
    DisplayFormats.Hotpath = DisplayFormats.Hotpath
      ∨ DisplayFormats.Hotpath = DisplayFormats.Json :=
  display_format_is_hotpath_or_json (⟨none, none, none⟩ : Config)
    (none : Option Unit) (Except.ok ()) DisplayFormats.Hotpath (by decide)
